import Mathlib

/-!
# cmplayer `AudioController` : a shallow embedding

The development embeds `src/cmplayer/audiocontroller.cpp` as pure state-passing
functions.

* `AudioController::Data` becomes the record `Data V T`; the two owned stages
  (`VolumeController *volume`, `TempoScaler *scaler`) are `Option V` / `Option T`,
  `none` being the null pointer.  The stage classes are declared in
  `audiofilter.hpp`; the controller only calls their member functions, which
  are taken as parameters (`VolumeOps`, `TempoOps`): every general theorem
  holds for all stage implementations.
* The constants of the audio-filter headers (`AF_OK`, `AF_CONTROL_*`,
  `AF_FORMAT_*`, `AF_NCH`) are taken as the parameter record `AfConst`.
* The library helpers `af_from_dB`, `af_to_dB`, `af_test_output` and the
  double-to-float conversion are taken as the parameter record `HostLib`.
* `double` / `float` values are `FP`: a finite rational, an infinity or NaN.
  The controller only stores, copies and compares such values.
* `void *arg` of `control` is the tagged payload `Arg`; a payload whose shape
  does not fit the command (the C code would dereference a wrongly typed or
  null pointer) makes `control` return `none`.
-/

namespace Bomi

/-- Floating point value as the controller sees it: a finite value, an
infinity, or NaN.  Every `double` and every `float` is one of these. -/
inductive FP where
  | fin (q : ℚ)
  | pinf
  | ninf
  | nan
  deriving DecidableEq

namespace FP

/-- C comparison `a == b` on floating point values (NaN equals nothing). -/
def eq : FP → FP → Bool
  | nan, _ => false
  | _, nan => false
  | a, b => decide (a = b)

/-- C comparison `a <= b` on floating point values (false when either is NaN). -/
def le : FP → FP → Bool
  | nan, _ => false
  | _, nan => false
  | ninf, _ => true
  | _, pinf => true
  | fin a, fin b => decide (a ≤ b)
  | _, _ => false

end FP

/-- Constants of the audio filter headers used by the controller. -/
structure AfConst where
  AF_NCH : Nat
  AF_OK : Int
  AF_FALSE : Int
  AF_UNKNOWN : Int
  AF_ERROR : Int
  AF_CONTROL_SET : Nat
  AF_CONTROL_GET : Nat
  AF_CONTROL_REINIT : Nat
  AF_CONTROL_VOLUME_LEVEL : Nat
  AF_CONTROL_PLAYBACK_SPEED : Nat
  AF_CONTROL_SCALETEMPO_AMOUNT : Nat
  AF_FORMAT_S16_NE : Int
  AF_FORMAT_S32_NE : Int
  AF_FORMAT_FLOAT_NE : Int
  AF_FORMAT_DOUBLE_NE : Int

namespace AfConst

/-- The six `case` labels of the `switch` in `AudioController::control`, in
source order. -/
def caseLabels (c : AfConst) : List Int :=
  [ (c.AF_CONTROL_REINIT : Int),
    ((c.AF_CONTROL_VOLUME_LEVEL ||| c.AF_CONTROL_SET : Nat) : Int),
    ((c.AF_CONTROL_VOLUME_LEVEL ||| c.AF_CONTROL_GET : Nat) : Int),
    ((c.AF_CONTROL_PLAYBACK_SPEED ||| c.AF_CONTROL_SET : Nat) : Int),
    ((c.AF_CONTROL_SCALETEMPO_AMOUNT ||| c.AF_CONTROL_SET : Nat) : Int),
    ((c.AF_CONTROL_SCALETEMPO_AMOUNT ||| c.AF_CONTROL_GET : Nat) : Int) ]

/-- The sample encodings the `switch` in `reinitialize` lets through. -/
def whitelist (c : AfConst) : List Int :=
  [c.AF_FORMAT_S16_NE, c.AF_FORMAT_S32_NE, c.AF_FORMAT_FLOAT_NE, c.AF_FORMAT_DOUBLE_NE]

/-- What the C++ compiler already enforces: the `case` labels of one `switch`
are pairwise distinct; and the two result codes of the speed commands differ. -/
def WellFormed (c : AfConst) : Prop :=
  c.caseLabels.Nodup ∧ c.AF_OK ≠ c.AF_UNKNOWN

instance (c : AfConst) : Decidable c.WellFormed := by
  unfold WellFormed; infer_instance

end AfConst

/-- One concrete choice of header constants (result and control codes in the
style of the mplayer audio filter headers, small tags for the sample
encodings), used to evaluate the model on concrete inputs. -/
def sampleConst : AfConst where
  AF_NCH := 8
  AF_OK := 1
  AF_FALSE := 0
  AF_UNKNOWN := -1
  AF_ERROR := -2
  AF_CONTROL_SET := 0x00000000
  AF_CONTROL_GET := 0x00000001
  AF_CONTROL_REINIT := 0x10000100
  AF_CONTROL_VOLUME_LEVEL := 0x40001300
  AF_CONTROL_PLAYBACK_SPEED := 0x40002500
  AF_CONTROL_SCALETEMPO_AMOUNT := 0x40002600
  AF_FORMAT_S16_NE := 16
  AF_FORMAT_S32_NE := 32
  AF_FORMAT_FLOAT_NE := 132
  AF_FORMAT_DOUBLE_NE := 164

/-- Modelled from the spec: the host's `mp_audio` buffer type, whose
declaration is in a missing header.  The spec's AudioBuffer is a sequence of
samples with a sample count and an AudioFormat (sample encoding, channel
count, sample rate). -/
structure mp_audio where
  audio : List Int
  len : Int
  rate : Int
  nch : Int
  format : Int
  deriving DecidableEq

/-- Modelled from the spec: the missing host helper `mp_audio_set_format`;
it sets the sample encoding of a buffer description. -/
def mp_audio_set_format (mpa : mp_audio) (format : Int) : mp_audio :=
  { mpa with format := format }

/-- Modelled from the spec: the missing host helper `mp_audio_copy_config`;
it copies the AudioFormat (sample encoding, channel count, sample rate) of
`src` into `dst` and leaves the samples of `dst` alone. -/
def mp_audio_copy_config (dst src : mp_audio) : mp_audio :=
  { mp_audio_set_format dst src.format with nch := src.nch, rate := src.rate }

/-- Modelled from the spec: the enumeration `ClippingMethod` of the missing
`enums.hpp` (automatic selection, hard limiting, soft limiting). -/
inductive ClippingMethod where
  | Auto
  | Hard
  | Soft
  deriving DecidableEq

/-- The record `NormalizerOption`, with the five fields that
`setNormalizerOption` assigns. -/
structure NormalizerOption where
  bufferLengthInSeconds : FP
  targetLevel : FP
  silenceLevel : FP
  minimumGain : FP
  maximumGain : FP
  deriving DecidableEq

/-- Payload behind the `void *arg` of `control`. -/
inductive Arg where
  | null
  | audio (a : mp_audio)
  | floats (l : List FP)
  | dbl (x : FP)
  | blob (bytes : List Nat)
  deriving DecidableEq

/-- The part of the host's `af_instance` that the controller writes in `play`. -/
structure af_instance where
  mul : FP
  delay : FP
  deriving DecidableEq

/-- Library routines of the host that the controller calls: the two decibel conversions (count, input array or null, output
array, scale and clamp bounds; they give the result code and the new output
array), `af_test_output` (the instance's canonical format and the proposed
one; it gives the result code and the possibly overwritten proposal) and the
conversion of a `double` to `float`. -/
structure HostLib where
  af_from_dB : Nat → Option (List FP) → List FP → FP → FP → FP → Int × List FP
  af_to_dB : Nat → List FP → Option (List FP) → FP → Int × Option (List FP)
  af_test_output : mp_audio → mp_audio → Int × mp_audio
  narrow : FP → FP

/-- The private record `AudioController::Data`.  The back pointer `af` is not
a field: the host instance is passed to the operations that use it. -/
structure Data (V T : Type) where
  normalizerActivated : Bool
  tempoScalerActivated : Bool
  volumeChanged : Bool
  scale : FP
  scaler : Option T
  volume : Option V
  data : mp_audio
  level : List FP
  normalizerOption : NormalizerOption
  clip : ClippingMethod
  deriving DecidableEq

/-- Member functions of `VolumeController` (the gain stage) that the
controller calls.  `prepare` and `play` may change the stage, so they return
its new state; `prepare` receives the controller. -/
structure VolumeOps (V T : Type) where
  create : Int → ClippingMethod → Option V
  isCompatibleWith : V → mp_audio → Bool
  clippingMethod : V → ClippingMethod
  reconfigure : V → mp_audio → V
  prepare : V → Data V T → mp_audio → Bool × V
  play : V → mp_audio → mp_audio × V
  gain : V → FP

/-- Member functions of `TempoScaler` (the tempo stage) that the controller
calls. -/
structure TempoOps (V T : Type) where
  create : Int → Option T
  isCompatibleWith : T → mp_audio → Bool
  reconfigure : T → mp_audio → T
  prepare : T → Data V T → mp_audio → Bool × T
  play : T → mp_audio → mp_audio × T
  multiplier : T → FP
  delay : T → FP

/-- Modelled from the spec: the missing helper `_Change` of `stdafx.hpp`,
which assigns the new value and tells whether the stored value changed. -/
def _Change (the one : Bool) : Bool × Bool :=
  if the != one then (true, one) else (false, the)

namespace AudioController

variable {V T : Type}

/-- The constructor: levels filled with 1.0, `data` zeroed, the in-class
initialisers of `Data`.  The defaults of `NormalizerOption` are declared in a
missing header and are a parameter. -/
def ctor (c : AfConst) (opt0 : NormalizerOption) : Data V T where
  normalizerActivated := false
  tempoScalerActivated := false
  volumeChanged := false
  scale := FP.fin 1
  scaler := none
  volume := none
  data := { audio := [], len := 0, rate := 0, nch := 0, format := 0 }
  level := List.replicate c.AF_NCH (FP.fin 1)
  normalizerOption := opt0
  clip := ClippingMethod.Auto

/-- The assignment `af->mul = 1` of `AudioController::open`. -/
def «open» (af : af_instance) : af_instance :=
  { af with mul := FP.fin 1 }

/-- `AudioController::setClippingMethod`. -/
def setClippingMethod (d : Data V T) (method : ClippingMethod) : Data V T :=
  { d with clip := method }

/-- The template `check(Filter *&, const mp_audio &)`, used for the tempo stage. -/
def check (ops : TempoOps V T) (filter : Option T) (data : mp_audio) : Option T :=
  let filter1 :=
    match filter with
    | none => ops.create data.format
    | some f => if !ops.isCompatibleWith f data then ops.create data.format else some f
  match filter1 with
  | some f => some (ops.reconfigure f data)
  | none => none

/-- The overload `check(VolumeController *&, ClippingMethod, const mp_audio &)`. -/
def checkVolume (ops : VolumeOps V T) (filter : Option V) (clip : ClippingMethod)
    (data : mp_audio) : Option V :=
  let filter1 :=
    match filter with
    | none => ops.create data.format clip
    | some f =>
      if !ops.isCompatibleWith f data || ops.clippingMethod f != clip then
        ops.create data.format clip
      else some f
  match filter1 with
  | some f => some (ops.reconfigure f data)
  | none => none

/-- `AudioController::reinitialize`; `none` is the null `mp_audio *`.  The
result is the return code, the new controller state and the proposal as
`af_test_output` left it. -/
def reinitialize (c : AfConst) (h : HostLib) (vops : VolumeOps V T) (tops : TempoOps V T)
    (d : Data V T) (data : Option mp_audio) : Int × Data V T × Option mp_audio :=
  let d0 := { d with volumeChanged := false }
  match data with
  | none => (c.AF_ERROR, d0, none)
  | some p =>
    let d1 := { d0 with data := mp_audio_copy_config d0.data p }
    let d2 :=
      if p.format = c.AF_FORMAT_S16_NE ∨ p.format = c.AF_FORMAT_S32_NE
          ∨ p.format = c.AF_FORMAT_FLOAT_NE ∨ p.format = c.AF_FORMAT_DOUBLE_NE then d1
      else { d1 with data := mp_audio_set_format d1.data c.AF_FORMAT_FLOAT_NE }
    let d3 := { d2 with volume := checkVolume vops d2.volume d2.clip d2.data }
    let d4 := { d3 with scaler := check tops d3.scaler d3.data }
    let r := h.af_test_output d4.data p
    (r.1, d4, some r.2)

/-- `AudioController::setLevel`: `std::fill_n(d->level, AF_NCH, level)` into a
`float` array. -/
def setLevel (c : AfConst) (h : HostLib) (d : Data V T) (level : FP) : Data V T :=
  { d with level := List.replicate c.AF_NCH (h.narrow level) }

/-- `AudioController::level`: the element `d->level[0]`. -/
def level (d : Data V T) : FP :=
  d.level.getD 0 (FP.fin 0)

/-- `AudioController::control`.  Gives the return code, the new controller
state and the payload after the call; `none` when the payload does not have
the shape the command dereferences. -/
def control (c : AfConst) (h : HostLib) (vops : VolumeOps V T) (tops : TempoOps V T)
    (d : Data V T) (cmd : Int) (arg : Arg) : Option (Int × Data V T × Arg) :=
  if cmd = (c.AF_CONTROL_REINIT : Int) then
    match arg with
    | Arg.null =>
      let r := reinitialize c h vops tops d none
      some (r.1, r.2.1, Arg.null)
    | Arg.audio p =>
      let r := reinitialize c h vops tops d (some p)
      some (r.1, r.2.1, match r.2.2 with | some q => Arg.audio q | none => Arg.null)
    | _ => none
  else if cmd = ((c.AF_CONTROL_VOLUME_LEVEL ||| c.AF_CONTROL_SET : Nat) : Int) then
    let d1 := { d with volumeChanged := true }
    match arg with
    | Arg.null =>
      let r := h.af_from_dB c.AF_NCH none d1.level (FP.fin 20) (FP.fin (-200)) (FP.fin 60)
      some (r.1, { d1 with level := r.2 }, Arg.null)
    | Arg.floats l =>
      let r := h.af_from_dB c.AF_NCH (some l) d1.level (FP.fin 20) (FP.fin (-200)) (FP.fin 60)
      some (r.1, { d1 with level := r.2 }, Arg.floats l)
    | _ => none
  else if cmd = ((c.AF_CONTROL_VOLUME_LEVEL ||| c.AF_CONTROL_GET : Nat) : Int) then
    match arg with
    | Arg.null =>
      let r := h.af_to_dB c.AF_NCH d.level none (FP.fin 20)
      some (r.1, d, Arg.null)
    | Arg.floats l =>
      let r := h.af_to_dB c.AF_NCH d.level (some l) (FP.fin 20)
      some (r.1, d, match r.2 with | some out => Arg.floats out | none => Arg.null)
    | _ => none
  else if cmd = ((c.AF_CONTROL_PLAYBACK_SPEED ||| c.AF_CONTROL_SET : Nat) : Int)
      ∨ cmd = ((c.AF_CONTROL_SCALETEMPO_AMOUNT ||| c.AF_CONTROL_SET : Nat) : Int) then
    match arg with
    | Arg.dbl x =>
      let d1 := { d with scale := x }
      some (if d1.tempoScalerActivated then c.AF_OK else c.AF_UNKNOWN, d1, Arg.dbl d1.scale)
    | _ => none
  else if cmd = ((c.AF_CONTROL_SCALETEMPO_AMOUNT ||| c.AF_CONTROL_GET : Nat) : Int) then
    match arg with
    | Arg.dbl _ =>
      some (if d.tempoScalerActivated then c.AF_OK else c.AF_UNKNOWN, d, Arg.dbl d.scale)
    | _ => none
  else
    some (c.AF_UNKNOWN, d, arg)

/-- The guard of the first `if` of `AudioController::play`. -/
def fastPath (d : Data V T) : Bool :=
  !d.volumeChanged && !d.normalizerActivated
    && (!d.tempoScalerActivated || FP.eq d.scale (FP.fin 1))

/-- `AudioController::play`.  Gives the returned buffer, the new controller
state (the stages may have changed) and the host instance after the call. -/
def play (vops : VolumeOps V T) (tops : TempoOps V T) (d : Data V T) (af : af_instance)
    (data : mp_audio) : mp_audio × Data V T × af_instance :=
  if fastPath d then (data, d, af)
  else
    let af1 := { af with mul := FP.fin 1 }
    let af2 := { af1 with delay := FP.fin 0 }
    let s1 : mp_audio × Data V T :=
      match d.volume with
      | none => (data, d)
      | some v =>
        let p := vops.prepare v d data
        if p.1 then
          let q := vops.play p.2 data
          (q.1, { d with volume := some q.2 })
        else (data, { d with volume := some p.2 })
    match s1.2.scaler with
    | none => (s1.1, s1.2, af2)
    | some t =>
      let p := tops.prepare t s1.2 s1.1
      if p.1 then
        let q := tops.play p.2 s1.1
        let af3 := { af2 with mul := tops.multiplier q.2 }
        let af4 := { af3 with delay := tops.delay q.2 }
        (q.1, { s1.2 with scaler := some q.2 }, af4)
      else (s1.1, { s1.2 with scaler := some p.2 }, af2)

/-- `AudioController::setNormalizerActivated`: the returned flag and the new state. -/
def setNormalizerActivated (d : Data V T) (on_ : Bool) : Bool × Data V T :=
  let r := _Change d.normalizerActivated on_
  (r.1, { d with normalizerActivated := r.2 })

/-- `AudioController::setTempoScalerActivated`: the returned flag and the new state. -/
def setTempoScalerActivated (d : Data V T) (on_ : Bool) : Bool × Data V T :=
  let r := _Change d.tempoScalerActivated on_
  (r.1, { d with tempoScalerActivated := r.2 })

/-- `AudioController::gain`. -/
def gain (vops : VolumeOps V T) (d : Data V T) : FP :=
  match d.normalizerActivated, d.volume with
  | true, some v => vops.gain v
  | _, _ => FP.fin 1

/-- `AudioController::isTempoScalerActivated`. -/
def isTempoScalerActivated (d : Data V T) : Bool :=
  d.tempoScalerActivated

/-- `AudioController::scale`. -/
def scale (d : Data V T) : FP :=
  d.scale

/-- `AudioController::setNormalizerOption`. -/
def setNormalizerOption (d : Data V T) (length target silence min max : FP) : Data V T :=
  let o1 := { d.normalizerOption with bufferLengthInSeconds := length }
  let o2 := { o1 with targetLevel := target }
  let o3 := { o2 with silenceLevel := silence }
  let o4 := { o3 with minimumGain := min }
  { d with normalizerOption := { o4 with maximumGain := max } }

/-- `AudioController::isNormalizerActivated`. -/
def isNormalizerActivated (d : Data V T) : Bool :=
  d.normalizerActivated

/-- `AudioController::normalizerOption`. -/
def normalizerOption (d : Data V T) : NormalizerOption :=
  d.normalizerOption

/-- An operation a client of the controller can perform: a control command,
a `play` call, or one of the public setters. -/
inductive Op where
  | control (cmd : Int) (arg : Arg)
  | play (data : mp_audio)
  | setLevel (level : FP)
  | setNormalizerActivated (on_ : Bool)
  | setTempoScalerActivated (on_ : Bool)
  | setNormalizerOption (length target silence min max : FP)
  | setClippingMethod (method : ClippingMethod)
  deriving DecidableEq

/-- The payload has the shape that `control` dereferences for this command:
an `mp_audio *` (possibly null) for reinit, a `float *` (possibly null) for
the volume commands, a non-null `double *` for the speed commands. -/
def argFits (c : AfConst) (cmd : Int) (arg : Arg) : Bool :=
  if cmd = (c.AF_CONTROL_REINIT : Int) then
    match arg with
    | Arg.null => true
    | Arg.audio _ => true
    | _ => false
  else if cmd = ((c.AF_CONTROL_VOLUME_LEVEL ||| c.AF_CONTROL_SET : Nat) : Int)
      ∨ cmd = ((c.AF_CONTROL_VOLUME_LEVEL ||| c.AF_CONTROL_GET : Nat) : Int) then
    match arg with
    | Arg.null => true
    | Arg.floats _ => true
    | _ => false
  else if cmd = ((c.AF_CONTROL_PLAYBACK_SPEED ||| c.AF_CONTROL_SET : Nat) : Int)
      ∨ cmd = ((c.AF_CONTROL_SCALETEMPO_AMOUNT ||| c.AF_CONTROL_SET : Nat) : Int)
      ∨ cmd = ((c.AF_CONTROL_SCALETEMPO_AMOUNT ||| c.AF_CONTROL_GET : Nat) : Int) then
    match arg with
    | Arg.dbl _ => true
    | _ => false
  else true

/-- Every control command of the operation carries a payload of fitting shape. -/
def Op.fits (c : AfConst) : Op → Bool
  | Op.control cmd arg => argFits c cmd arg
  | _ => true

/-- The operation is a reinit command. -/
def Op.isReinit (c : AfConst) : Op → Bool
  | Op.control cmd _ => decide (cmd = (c.AF_CONTROL_REINIT : Int))
  | _ => false

/-- The operation is a set-volume command. -/
def Op.isSetVolume (c : AfConst) : Op → Bool
  | Op.control cmd _ =>
    decide (cmd = ((c.AF_CONTROL_VOLUME_LEVEL ||| c.AF_CONTROL_SET : Nat) : Int))
  | _ => false

/-- One operation on a controller together with its host instance. -/
def step (c : AfConst) (h : HostLib) (vops : VolumeOps V T) (tops : TempoOps V T)
    (s : Data V T × af_instance) : Op → Option (Data V T × af_instance)
  | Op.control cmd arg =>
    match control c h vops tops s.1 cmd arg with
    | some r => some (r.2.1, s.2)
    | none => none
  | Op.play data =>
    let r := play vops tops s.1 s.2 data
    some (r.2.1, r.2.2)
  | Op.setLevel x => some (setLevel c h s.1 x, s.2)
  | Op.setNormalizerActivated b => some ((setNormalizerActivated s.1 b).2, s.2)
  | Op.setTempoScalerActivated b => some ((setTempoScalerActivated s.1 b).2, s.2)
  | Op.setNormalizerOption l t si mi ma => some (setNormalizerOption s.1 l t si mi ma, s.2)
  | Op.setClippingMethod m => some (setClippingMethod s.1 m, s.2)

/-- A finite sequence of operations, performed in order. -/
def run (c : AfConst) (h : HostLib) (vops : VolumeOps V T) (tops : TempoOps V T)
    (s : Data V T × af_instance) : List Op → Option (Data V T × af_instance)
  | [] => some s
  | op :: rest =>
    match step c h vops tops s op with
    | some s1 => run c h vops tops s1 rest
    | none => none

/-- The sequence contains a set-volume command with no reinit command after it. -/
def SetVolumeAfterLastReinit (c : AfConst) (ops : List Op) : Prop :=
  ∃ pre arg post,
    ops = pre ++ Op.control ((c.AF_CONTROL_VOLUME_LEVEL ||| c.AF_CONTROL_SET : Nat) : Int) arg
        :: post
      ∧ ∀ op ∈ post, Op.isReinit c op = false

/-- The spec's words for the first stage of `process`: "if GainStage is
present and reports itself applicable to this buffer, replace buffer with
GainStage's output".  This is the buffer handed on to the tempo stage. -/
def gainStageOutput (vops : VolumeOps V T) (d : Data V T) (data : mp_audio) : mp_audio :=
  match d.volume with
  | some v =>
    if (vops.prepare v d data).1 then (vops.play (vops.prepare v d data).2 data).1 else data
  | none => data

/-- The controller as the tempo stage's `prepare` sees it: the gain stage has
been asked (and has played, when applicable); nothing else has changed. -/
def afterGainStage (vops : VolumeOps V T) (d : Data V T) (data : mp_audio) : Data V T :=
  match d.volume with
  | some v =>
    if (vops.prepare v d data).1 then
      { d with volume := some (vops.play (vops.prepare v d data).2 data).2 }
    else { d with volume := some (vops.prepare v d data).2 }
  | none => d

/-- The value lies in the closed interval the stored normalizer settings give. -/
def gainInRange (o : NormalizerOption) (g : FP) : Bool :=
  FP.le o.minimumGain g && FP.le g o.maximumGain

/-- Modelled from the spec: the clamp contract of the gain stage, whose body
(`VolumeController` with its normalizer) is absent.  Section 4.3: the stage
"derives a gain correction ... clamped to [minimumGain, maximumGain]. The
clamp is the stage's single hard invariant", and the settings "take effect on
the next buffer processed".  `prepare` is the one member function that
receives the controller, so the contract reads: once the stage has prepared a
buffer against a controller with normalization active and
minimumGain ≤ maximumGain, and also once it has played that buffer, its
`gain()` lies within the interval that controller stores. -/
def ClampsGain (vops : VolumeOps V T) : Prop :=
  ∀ (v : V) (d : Data V T) (data : mp_audio),
    d.normalizerActivated = true →
    FP.le d.normalizerOption.minimumGain d.normalizerOption.maximumGain = true →
    gainInRange d.normalizerOption (vops.gain (vops.prepare v d data).2) = true
    ∧ gainInRange d.normalizerOption
        (vops.gain (vops.play (vops.prepare v d data).2 data).2) = true

/-- The operation neither hands a buffer to the stages nor rebuilds them nor
stores normalizer settings: it is not a `play`, not a reinit command and not
`setNormalizerOption`. -/
def Op.keepsGainStage (c : AfConst) : Op → Bool
  | Op.control cmd _ => !decide (cmd = (c.AF_CONTROL_REINIT : Int))
  | Op.play _ => false
  | Op.setNormalizerOption _ _ _ _ _ => false
  | _ => true

end AudioController

/-! ## Stand-ins for the parameters

The stages and library routines below are deliberately simple.  They are used
only to run the model on concrete inputs; no general theorem depends on them. -/

/-- Stand-in library: the decibel conversions copy the first `n` values
(error on a null array), `af_test_output` compares the two formats and
overwrites the proposal when they differ, narrowing is exact. -/
def toyHost : HostLib where
  af_from_dB := fun n inp out _ _ _ =>
    match inp with
    | none => (-2, out)
    | some l => (1, l.take n)
  af_to_dB := fun n inp out _ =>
    match out with
    | none => (-2, none)
    | some _ => (1, some (inp.take n))
  af_test_output := fun cur out =>
    if cur.format ≠ out.format ∨ cur.rate ≠ out.rate ∨ cur.nch ≠ out.nch then (0, cur)
    else (1, out)
  narrow := fun x => x

/-- Stand-in gain stage: its state counts the buffers it has played; it is
applicable to every buffer, doubles each sample and reports gain 1. -/
def toyVolume : VolumeOps Nat Nat where
  create := fun _ _ => some 0
  isCompatibleWith := fun _ _ => true
  clippingMethod := fun _ => ClippingMethod.Auto
  reconfigure := fun v _ => v
  prepare := fun v _ _ => (true, v)
  play := fun v a => ({ a with audio := a.audio.map (fun x => 2 * x) }, v + 1)
  gain := fun _ => FP.fin 1

/-- Stand-in tempo stage: its state counts the buffers it has played; it is
applicable when tempo scaling is on and the speed is not 1.0, keeps the first
half of the samples, and reports multiplier 1/2 and delay 3. -/
def toyTempo : TempoOps Nat Nat where
  create := fun _ => some 0
  isCompatibleWith := fun _ _ => true
  reconfigure := fun t _ => t
  prepare := fun t d _ => (d.tempoScalerActivated && !FP.eq d.scale (FP.fin 1), t)
  play := fun t a => ({ a with audio := a.audio.take (a.audio.length / 2) }, t + 1)
  multiplier := fun _ => FP.fin (1 / 2)
  delay := fun _ => FP.fin 3

/-- Clamp of a raw correction to the interval of the given settings. -/
def clampGain (o : NormalizerOption) (raw : FP) : FP :=
  if FP.le o.minimumGain raw then
    (if FP.le raw o.maximumGain then raw else o.maximumGain)
  else o.minimumGain

/-- Stand-in gain stage that honours the clamp contract: its state is its
current correction, 1 when created; `prepare` clamps that correction to the
interval the controller stores while normalization is active and falls back
to 1 otherwise; `play` hands the buffer back. -/
def clampingVolume : VolumeOps FP Nat where
  create := fun _ _ => some (FP.fin 1)
  isCompatibleWith := fun _ _ => true
  clippingMethod := fun _ => ClippingMethod.Auto
  reconfigure := fun v _ => v
  prepare := fun v d _ =>
    (true, if d.normalizerActivated then clampGain d.normalizerOption v else FP.fin 1)
  play := fun v a => (a, v)
  gain := fun v => v

/-- Stand-in tempo stage that cannot be built: `create` gives null. -/
def noTempo : TempoOps FP Nat where
  create := fun _ => none
  isCompatibleWith := fun _ _ => true
  reconfigure := fun t _ => t
  prepare := fun t _ _ => (false, t)
  play := fun t a => (a, t)
  multiplier := fun _ => FP.fin 1
  delay := fun _ => FP.fin 0

/-- Sample normalizer settings with minimumGain 2 and maximumGain 4. -/
def sampleOption : NormalizerOption where
  bufferLengthInSeconds := FP.fin 5
  targetLevel := FP.fin 1
  silenceLevel := FP.fin 0
  minimumGain := FP.fin 2
  maximumGain := FP.fin 4

/-- Sample buffer: four 16-bit stereo samples at 48 kHz. -/
def sampleBuffer : mp_audio where
  audio := [10, 20, 30, 40]
  len := 8
  rate := 48000
  nch := 2
  format := 16

/-- Sample controller state: freshly constructed. -/
def sampleData : Data Nat Nat :=
  AudioController.ctor sampleConst sampleOption

/-- Sample session on a fresh, opened controller: reinit with the sample
format, switch tempo scaling on, set the playback speed to 2, play one
buffer, switch tempo scaling off again. -/
def sampleSession : List AudioController.Op :=
  [ AudioController.Op.control 0x10000100 (Arg.audio sampleBuffer),
    AudioController.Op.setTempoScalerActivated true,
    AudioController.Op.control 0x40002500 (Arg.dbl (FP.fin 2)),
    AudioController.Op.play sampleBuffer,
    AudioController.Op.setTempoScalerActivated false ]

/-- Sample session with volume commands: set-volume, reinit with a null
format, set-volume again, then a `play`, a `setLevel` and a get-volume. -/
def sampleVolumeSession : List AudioController.Op :=
  [ AudioController.Op.control 0x40001300 (Arg.floats [FP.fin 0, FP.fin 0]),
    AudioController.Op.control 0x10000100 Arg.null,
    AudioController.Op.control 0x40001300 (Arg.floats [FP.fin (-6), FP.fin (-6)]),
    AudioController.Op.play sampleBuffer,
    AudioController.Op.setLevel (FP.fin 3),
    AudioController.Op.control 0x40001301 (Arg.floats [FP.fin 0, FP.fin 0]) ]

/-- Sample controller state the sample session ends in: both stages built
for the sample format, speed 2 stored, every activation flag false. -/
def sampleIdle : Data Nat Nat :=
  { sampleData with
    data := { audio := [], len := 0, rate := 48000, nch := 2, format := 16 },
    scale := FP.fin 2, volume := some 1, scaler := some 1 }

/-- Host instance as the sample session leaves it: the tempo stage's
multiplier 1/2 and delay 3. -/
def staleReport : af_instance :=
  { mul := FP.fin (1 / 2), delay := FP.fin 3 }

/-- Sample controller state reached from the fresh controller by
`setNormalizerOption(5, 1, 0, 2, 4)` and `setNormalizerActivated(true)`: no
reinit has happened, so no gain stage has been built. -/
def sampleNormalizing : Data Nat Nat :=
  (AudioController.setNormalizerActivated
    (AudioController.setNormalizerOption sampleData
      (FP.fin 5) (FP.fin 1) (FP.fin 0) (FP.fin 2) (FP.fin 4)) true).2

/-- Sample session on a fresh controller with the clamping stand-in: store
normalizer settings with interval [2, 4], activate normalization, reinit with
the sample format (the gain stage is built here). -/
def sampleNormalizerSession : List AudioController.Op :=
  [ AudioController.Op.setNormalizerOption (FP.fin 5) (FP.fin 1) (FP.fin 0) (FP.fin 2) (FP.fin 4),
    AudioController.Op.setNormalizerActivated true,
    AudioController.Op.control 0x10000100 (Arg.audio sampleBuffer) ]

/-- Sample controller state the normalizer session ends in: normalization
active, interval [2, 4] stored, gain stage present with its initial
correction 1, no tempo stage. -/
def sampleBuilt : Data FP Nat :=
  { normalizerActivated := true, tempoScalerActivated := false, volumeChanged := false,
    scale := FP.fin 1, scaler := none, volume := some (FP.fin 1),
    data := { audio := [], len := 0, rate := 48000, nch := 2, format := 16 },
    level := List.replicate 8 (FP.fin 1),
    normalizerOption :=
      { bufferLengthInSeconds := FP.fin 5, targetLevel := FP.fin 1, silenceLevel := FP.fin 0,
        minimumGain := FP.fin 2, maximumGain := FP.fin 4 },
    clip := ClippingMethod.Auto }

/-- Sample controller state reached from `sampleBuilt` by one `play` (the
stage has clamped its correction to 2) followed by
`setNormalizerOption(5, 1, 0, 5, 6)`. -/
def sampleRestored : Data FP Nat :=
  { sampleBuilt with
    volume := some (FP.fin 2),
    normalizerOption :=
      { bufferLengthInSeconds := FP.fin 5, targetLevel := FP.fin 1, silenceLevel := FP.fin 0,
        minimumGain := FP.fin 5, maximumGain := FP.fin 6 } }

/-- Sample controller state with both stages built, the volume set
explicitly, tempo scaling on and speed 2. -/
def sampleBusy : Data Nat Nat :=
  { sampleData with
    volumeChanged := true, tempoScalerActivated := true, scale := FP.fin 2,
    volume := some 0, scaler := some 0 }

/-! ## Theorems -/

namespace AudioController

variable {V T : Type}

section Labels

variable {c : AfConst}

theorem labels_ne (hc : c.WellFormed) :
    (c.AF_CONTROL_REINIT : Int) ≠ ((c.AF_CONTROL_VOLUME_LEVEL ||| c.AF_CONTROL_SET : Nat) : Int)
    ∧ (c.AF_CONTROL_REINIT : Int)
        ≠ ((c.AF_CONTROL_PLAYBACK_SPEED ||| c.AF_CONTROL_SET : Nat) : Int)
    ∧ (c.AF_CONTROL_REINIT : Int)
        ≠ ((c.AF_CONTROL_SCALETEMPO_AMOUNT ||| c.AF_CONTROL_SET : Nat) : Int)
    ∧ (c.AF_CONTROL_REINIT : Int)
        ≠ ((c.AF_CONTROL_SCALETEMPO_AMOUNT ||| c.AF_CONTROL_GET : Nat) : Int)
    ∧ ((c.AF_CONTROL_VOLUME_LEVEL ||| c.AF_CONTROL_SET : Nat) : Int)
        ≠ ((c.AF_CONTROL_PLAYBACK_SPEED ||| c.AF_CONTROL_SET : Nat) : Int)
    ∧ ((c.AF_CONTROL_VOLUME_LEVEL ||| c.AF_CONTROL_SET : Nat) : Int)
        ≠ ((c.AF_CONTROL_SCALETEMPO_AMOUNT ||| c.AF_CONTROL_SET : Nat) : Int)
    ∧ ((c.AF_CONTROL_VOLUME_LEVEL ||| c.AF_CONTROL_SET : Nat) : Int)
        ≠ ((c.AF_CONTROL_SCALETEMPO_AMOUNT ||| c.AF_CONTROL_GET : Nat) : Int)
    ∧ ((c.AF_CONTROL_VOLUME_LEVEL ||| c.AF_CONTROL_GET : Nat) : Int)
        ≠ ((c.AF_CONTROL_PLAYBACK_SPEED ||| c.AF_CONTROL_SET : Nat) : Int)
    ∧ ((c.AF_CONTROL_VOLUME_LEVEL ||| c.AF_CONTROL_GET : Nat) : Int)
        ≠ ((c.AF_CONTROL_SCALETEMPO_AMOUNT ||| c.AF_CONTROL_SET : Nat) : Int)
    ∧ ((c.AF_CONTROL_VOLUME_LEVEL ||| c.AF_CONTROL_GET : Nat) : Int)
        ≠ ((c.AF_CONTROL_SCALETEMPO_AMOUNT ||| c.AF_CONTROL_GET : Nat) : Int)
    ∧ ((c.AF_CONTROL_PLAYBACK_SPEED ||| c.AF_CONTROL_SET : Nat) : Int)
        ≠ ((c.AF_CONTROL_SCALETEMPO_AMOUNT ||| c.AF_CONTROL_GET : Nat) : Int)
    ∧ ((c.AF_CONTROL_SCALETEMPO_AMOUNT ||| c.AF_CONTROL_SET : Nat) : Int)
        ≠ ((c.AF_CONTROL_SCALETEMPO_AMOUNT ||| c.AF_CONTROL_GET : Nat) : Int) := by
  have h := hc.1
  simp only [AfConst.caseLabels, List.nodup_cons, List.mem_cons, List.mem_singleton,
    List.not_mem_nil, not_or, or_false] at h
  tauto

end Labels

/-- C2: a command code that is none of the six case labels of the switch
(reinit, set-volume, get-volume, the two set-speed codes, get-speed) makes
`control` return AF_UNKNOWN and leaves the whole controller state and the
payload as they were, whatever the payload is. -/
theorem control_unknown_command (c : AfConst) (h : HostLib) (vops : VolumeOps V T)
    (tops : TempoOps V T) (d : Data V T) (cmd : Int) (arg : Arg)
    (hcmd : cmd ∉ c.caseLabels) :
    control c h vops tops d cmd arg = some (c.AF_UNKNOWN, d, arg) := by
  simp only [AfConst.caseLabels, List.mem_cons, List.mem_singleton, List.not_mem_nil,
    not_or, or_false] at hcmd
  obtain ⟨h1, h2, h3, h4, h5, h6⟩ := hcmd
  delta control
  simp [h1, h2, h3, h4, h5, h6]

/-- Witness for C2: the code "playback speed, get" is not a case label; on the
sample controller it is answered with AF_UNKNOWN and nothing changes. -/
theorem control_unknown_command_witness :
    (0x40002501 : Int) ∉ sampleConst.caseLabels
    ∧ control sampleConst toyHost toyVolume toyTempo sampleData 0x40002501 (Arg.dbl (FP.fin 2))
        = some (sampleConst.AF_UNKNOWN, sampleData, Arg.dbl (FP.fin 2)) :=
  ⟨by decide, control_unknown_command sampleConst toyHost toyVolume toyTempo sampleData
    0x40002501 (Arg.dbl (FP.fin 2)) (by decide)⟩

theorem control_set_speed (c : AfConst) (h : HostLib) (vops : VolumeOps V T)
    (tops : TempoOps V T) (hc : c.WellFormed) (d : Data V T) (cmd : Int) (x : FP)
    (hcmd : cmd = ((c.AF_CONTROL_PLAYBACK_SPEED ||| c.AF_CONTROL_SET : Nat) : Int)
      ∨ cmd = ((c.AF_CONTROL_SCALETEMPO_AMOUNT ||| c.AF_CONTROL_SET : Nat) : Int)) :
    control c h vops tops d cmd (Arg.dbl x)
      = some (if d.tempoScalerActivated then c.AF_OK else c.AF_UNKNOWN,
          { d with scale := x }, Arg.dbl x) := by
  obtain ⟨h1, h2, h3, h4, h5, h6, h7, h8, h9, h10, h11, h12⟩ := labels_ne hc
  delta control
  rcases hcmd with rfl | rfl
  · simp [h2.symm, h5.symm, h8.symm]
  · simp [h3.symm, h6.symm, h9.symm]

theorem control_get_speed (c : AfConst) (h : HostLib) (vops : VolumeOps V T)
    (tops : TempoOps V T) (hc : c.WellFormed) (d : Data V T) (y : FP) :
    control c h vops tops d ((c.AF_CONTROL_SCALETEMPO_AMOUNT ||| c.AF_CONTROL_GET : Nat) : Int)
        (Arg.dbl y)
      = some (if d.tempoScalerActivated then c.AF_OK else c.AF_UNKNOWN, d, Arg.dbl d.scale) := by
  obtain ⟨h1, h2, h3, h4, h5, h6, h7, h8, h9, h10, h11, h12⟩ := labels_ne hc
  delta control
  simp [h4.symm, h7.symm, h10.symm, h11.symm, h12.symm]

/-- C5: a set-speed command of either kind with payload x is carried out,
after it `scale()` returns x, and a get-speed command that follows writes
exactly x into its payload (tempo scaling active or not); a get-speed command
on any state is carried out and leaves the whole controller state, the stored
speed included, as it was, writing the stored speed into its payload. -/
theorem speed_set_then_get (c : AfConst) (h : HostLib) (vops : VolumeOps V T)
    (tops : TempoOps V T) (hc : c.WellFormed) (d : Data V T) (cmd : Int) (x y : FP)
    (hcmd : cmd = ((c.AF_CONTROL_PLAYBACK_SPEED ||| c.AF_CONTROL_SET : Nat) : Int)
      ∨ cmd = ((c.AF_CONTROL_SCALETEMPO_AMOUNT ||| c.AF_CONTROL_SET : Nat) : Int)) :
    (∃ res d1 a1, control c h vops tops d cmd (Arg.dbl x) = some (res, d1, a1)
        ∧ scale d1 = x
        ∧ ∃ res2, control c h vops tops d1
              ((c.AF_CONTROL_SCALETEMPO_AMOUNT ||| c.AF_CONTROL_GET : Nat) : Int) (Arg.dbl y)
            = some (res2, d1, Arg.dbl x))
    ∧ ∃ res, control c h vops tops d
          ((c.AF_CONTROL_SCALETEMPO_AMOUNT ||| c.AF_CONTROL_GET : Nat) : Int) (Arg.dbl y)
        = some (res, d, Arg.dbl (scale d)) := by
  constructor
  · exact ⟨_, _, _, control_set_speed c h vops tops hc d cmd x hcmd, rfl, _,
      control_get_speed c h vops tops hc _ y⟩
  · exact ⟨_, control_get_speed c h vops tops hc d y⟩

/-- Witness for C5: on the fresh sample controller (tempo scaling off), the
playback-speed set command with payload 2 followed by get-speed, whose
payload held NaN before. -/
theorem speed_set_then_get_witness :
    sampleConst.WellFormed
    ∧ (∃ res d1 a1, control sampleConst toyHost toyVolume toyTempo sampleData 0x40002500
            (Arg.dbl (FP.fin 2)) = some (res, d1, a1)
        ∧ scale d1 = FP.fin 2
        ∧ ∃ res2, control sampleConst toyHost toyVolume toyTempo d1
              ((sampleConst.AF_CONTROL_SCALETEMPO_AMOUNT ||| sampleConst.AF_CONTROL_GET : Nat)
                : Int) (Arg.dbl FP.nan)
            = some (res2, d1, Arg.dbl (FP.fin 2)))
    ∧ ∃ res, control sampleConst toyHost toyVolume toyTempo sampleData
          ((sampleConst.AF_CONTROL_SCALETEMPO_AMOUNT ||| sampleConst.AF_CONTROL_GET : Nat) : Int)
          (Arg.dbl FP.nan)
        = some (res, sampleData, Arg.dbl (scale sampleData)) :=
  ⟨by decide, speed_set_then_get sampleConst toyHost toyVolume toyTempo (by decide) sampleData
    0x40002500 (FP.fin 2) FP.nan (Or.inl (by decide))⟩

/-- C6: a set-speed command (either kind) or a get-speed command is carried
out and its result is AF_OK exactly when tempo scaling is active at the time
of the call and AF_UNKNOWN otherwise; a set-speed command stores its payload
as the speed in both cases. -/
theorem speed_command_result (c : AfConst) (h : HostLib) (vops : VolumeOps V T)
    (tops : TempoOps V T) (hc : c.WellFormed) (d : Data V T) (cmd : Int) (x : FP)
    (hcmd : cmd = ((c.AF_CONTROL_PLAYBACK_SPEED ||| c.AF_CONTROL_SET : Nat) : Int)
      ∨ cmd = ((c.AF_CONTROL_SCALETEMPO_AMOUNT ||| c.AF_CONTROL_SET : Nat) : Int)
      ∨ cmd = ((c.AF_CONTROL_SCALETEMPO_AMOUNT ||| c.AF_CONTROL_GET : Nat) : Int)) :
    ∃ res d1 a1, control c h vops tops d cmd (Arg.dbl x) = some (res, d1, a1)
      ∧ (res = c.AF_OK ↔ d.tempoScalerActivated = true)
      ∧ (res = c.AF_UNKNOWN ↔ d.tempoScalerActivated = false)
      ∧ (cmd ≠ ((c.AF_CONTROL_SCALETEMPO_AMOUNT ||| c.AF_CONTROL_GET : Nat) : Int)
          → scale d1 = x) := by
  have hne := hc.2
  have key : ∀ b : Bool,
      ((if b then c.AF_OK else c.AF_UNKNOWN) = c.AF_OK ↔ b = true)
      ∧ ((if b then c.AF_OK else c.AF_UNKNOWN) = c.AF_UNKNOWN ↔ b = false) := by
    intro b
    cases b
    · simp [Ne.symm hne]
    · simp [hne]
  rcases hcmd with h1 | h1 | h1
  · exact ⟨_, _, _, control_set_speed c h vops tops hc d cmd x (Or.inl h1),
      (key _).1, (key _).2, fun _ => rfl⟩
  · exact ⟨_, _, _, control_set_speed c h vops tops hc d cmd x (Or.inr h1),
      (key _).1, (key _).2, fun _ => rfl⟩
  · subst h1
    exact ⟨_, _, _, control_get_speed c h vops tops hc d x,
      (key _).1, (key _).2, fun hh => absurd rfl hh⟩

/-- Witness for C6: the tempo-amount set command with payload 2 on the fresh
sample controller, where tempo scaling is off. -/
theorem speed_command_result_witness :
    sampleConst.WellFormed
    ∧ ∃ res d1 a1, control sampleConst toyHost toyVolume toyTempo sampleData 0x40002600
          (Arg.dbl (FP.fin 2)) = some (res, d1, a1)
      ∧ (res = sampleConst.AF_OK ↔ sampleData.tempoScalerActivated = true)
      ∧ (res = sampleConst.AF_UNKNOWN ↔ sampleData.tempoScalerActivated = false)
      ∧ ((0x40002600 : Int)
            ≠ ((sampleConst.AF_CONTROL_SCALETEMPO_AMOUNT ||| sampleConst.AF_CONTROL_GET : Nat)
                : Int)
          → scale d1 = FP.fin 2) :=
  ⟨by decide, speed_command_result sampleConst toyHost toyVolume toyTempo (by decide) sampleData
    0x40002600 (FP.fin 2) (Or.inr (Or.inl (by decide)))⟩

/-- C7: after `reinitialize` with a non-null proposed format the canonical
format has the proposed sample encoding when that is one of the four
whitelisted encodings and AF_FORMAT_FLOAT_NE otherwise, so its encoding is
always whitelisted; its channel count and sample rate are the proposed ones. -/
theorem reinitialize_canonical_format (c : AfConst) (h : HostLib) (vops : VolumeOps V T)
    (tops : TempoOps V T) (d : Data V T) (p : mp_audio) :
    ( reinitialize c h vops tops d (some p)).2.1.data.format
        = (if p.format ∈ c.whitelist then p.format else c.AF_FORMAT_FLOAT_NE)
    ∧ ( reinitialize c h vops tops d (some p)).2.1.data.format ∈ c.whitelist
    ∧ ( reinitialize c h vops tops d (some p)).2.1.data.nch = p.nch
    ∧ ( reinitialize c h vops tops d (some p)).2.1.data.rate = p.rate := by
  by_cases hw : p.format = c.AF_FORMAT_S16_NE ∨ p.format = c.AF_FORMAT_S32_NE
      ∨ p.format = c.AF_FORMAT_FLOAT_NE ∨ p.format = c.AF_FORMAT_DOUBLE_NE
  · have hm : p.format ∈ c.whitelist := by
      simpa [AfConst.whitelist] using hw
    simp [ reinitialize, hw, hm, mp_audio_copy_config, mp_audio_set_format]
  · have hm : p.format ∉ c.whitelist := by
      simpa [AfConst.whitelist] using hw
    simp [ reinitialize, hw, hm, mp_audio_copy_config, mp_audio_set_format, AfConst.whitelist]

theorem play_fast (vops : VolumeOps V T) (tops : TempoOps V T) (d : Data V T)
    (af : af_instance) (data : mp_audio) (hfast : fastPath d = true) :
    play vops tops d af data = (data, d, af) := by
  simp [play, hfast]

theorem fastPath_of_flags (d : Data V T) (h1 : d.volumeChanged = false)
    (h2 : d.normalizerActivated = false) (h3 : d.tempoScalerActivated = false) :
    fastPath d = true := by
  simp [fastPath, h1, h2, h3]

/-- C1 (evaluation of the code): after the sample session, which ends by
switching tempo scaling off, all three activation flags are false; the next
`play` returns its input buffer and leaves the controller alone, but the host
instance still reports the multiplier 1/2 and the delay 3 that the tempo
stage wrote during the session, not 1.0 and 0.0. -/
theorem play_fast_path_keeps_stale_report :
    run sampleConst toyHost toyVolume toyTempo
        (sampleData, AudioController.open { mul := FP.fin 0, delay := FP.fin 0 })
        sampleSession = some (sampleIdle, staleReport)
      ∧ sampleIdle.volumeChanged = false ∧ sampleIdle.normalizerActivated = false
      ∧ sampleIdle.tempoScalerActivated = false
      ∧ play toyVolume toyTempo sampleIdle staleReport sampleBuffer
          = (sampleBuffer, sampleIdle, staleReport)
      ∧ (play toyVolume toyTempo sampleIdle staleReport sampleBuffer).2.2.mul ≠ FP.fin 1
      ∧ (play toyVolume toyTempo sampleIdle staleReport sampleBuffer).2.2.delay ≠ FP.fin 0 := by
  have hp : play toyVolume toyTempo sampleIdle staleReport sampleBuffer
      = (sampleBuffer, sampleIdle, staleReport) := by rfl
  refine ⟨by rfl, by rfl, by rfl, by rfl, hp, ?_, ?_⟩
  · rw [hp]
    simp [staleReport]
  · rw [hp]
    simp [staleReport]

theorem play_slow (vops : VolumeOps V T) (tops : TempoOps V T) (d : Data V T)
    (af : af_instance) (data : mp_audio) (hslow : fastPath d = false) :
    play vops tops d af data
      = match d.scaler with
        | none =>
          (gainStageOutput vops d data, afterGainStage vops d data,
            { mul := FP.fin 1, delay := FP.fin 0 })
        | some t =>
          if (tops.prepare t (afterGainStage vops d data) (gainStageOutput vops d data)).1 then
            ((tops.play
                (tops.prepare t (afterGainStage vops d data) (gainStageOutput vops d data)).2
                (gainStageOutput vops d data)).1,
              { afterGainStage vops d data with
                scaler := some (tops.play
                  (tops.prepare t (afterGainStage vops d data) (gainStageOutput vops d data)).2
                  (gainStageOutput vops d data)).2 },
              { mul := tops.multiplier (tops.play
                  (tops.prepare t (afterGainStage vops d data) (gainStageOutput vops d data)).2
                  (gainStageOutput vops d data)).2,
                delay := tops.delay (tops.play
                  (tops.prepare t (afterGainStage vops d data) (gainStageOutput vops d data)).2
                  (gainStageOutput vops d data)).2 })
          else
            (gainStageOutput vops d data,
              { afterGainStage vops d data with
                scaler := some
                  (tops.prepare t (afterGainStage vops d data) (gainStageOutput vops d data)).2 },
              { mul := FP.fin 1, delay := FP.fin 0 }) := by
  unfold play gainStageOutput afterGainStage
  rw [hslow]
  cases hv : d.volume with
  | none =>
    cases hs : d.scaler with
    | none => simp [hs]
    | some t => simp [hs]
  | some v =>
    by_cases hp : (vops.prepare v d data).1 = true
    · cases hs : d.scaler with
      | none => simp [hp, hs]
      | some t => simp [hp, hs]
    · cases hs : d.scaler with
      | none => simp [hp, hs]
      | some t => simp [hp, hs]

/-- C9: off the fast path `play` runs the gain stage first and the tempo stage
second.  The buffer offered to the tempo stage's `prepare` and `play` is the
gain stage's output when that stage is present and applicable and the input
buffer otherwise (`gainStageOutput`).  With the tempo stage present and
applicable the returned buffer is its output and the reported multiplier and
delay are its `multiplier()` and `delay()` after playing; with the tempo stage
absent or not applicable the returned buffer is the gain step's buffer and the
report is 1.0 and 0.0.  With both stages absent the input buffer comes back
unchanged, the controller is untouched and the report is 1.0 and 0.0. -/
theorem play_gain_then_tempo (vops : VolumeOps V T) (tops : TempoOps V T) (d : Data V T)
    (af : af_instance) (data : mp_audio) (hslow : fastPath d = false) :
    (d.volume = none → gainStageOutput vops d data = data)
    ∧ (∀ v, d.volume = some v → (vops.prepare v d data).1 = false →
        gainStageOutput vops d data = data)
    ∧ (∀ v, d.volume = some v → (vops.prepare v d data).1 = true →
        gainStageOutput vops d data = (vops.play (vops.prepare v d data).2 data).1)
    ∧ (d.scaler = none →
        (play vops tops d af data).1 = gainStageOutput vops d data
        ∧ (play vops tops d af data).2.2 = { mul := FP.fin 1, delay := FP.fin 0 })
    ∧ (∀ t, d.scaler = some t →
        (tops.prepare t (afterGainStage vops d data) (gainStageOutput vops d data)).1 = false →
        (play vops tops d af data).1 = gainStageOutput vops d data
        ∧ (play vops tops d af data).2.2 = { mul := FP.fin 1, delay := FP.fin 0 })
    ∧ (∀ t, d.scaler = some t →
        (tops.prepare t (afterGainStage vops d data) (gainStageOutput vops d data)).1 = true →
        (play vops tops d af data).1
          = (tops.play
              (tops.prepare t (afterGainStage vops d data) (gainStageOutput vops d data)).2
              (gainStageOutput vops d data)).1
        ∧ (play vops tops d af data).2.2
          = { mul := tops.multiplier (tops.play
                (tops.prepare t (afterGainStage vops d data) (gainStageOutput vops d data)).2
                (gainStageOutput vops d data)).2,
              delay := tops.delay (tops.play
                (tops.prepare t (afterGainStage vops d data) (gainStageOutput vops d data)).2
                (gainStageOutput vops d data)).2 })
    ∧ (d.volume = none → d.scaler = none →
        play vops tops d af data = (data, d, { mul := FP.fin 1, delay := FP.fin 0 })) := by
  have hplay := play_slow vops tops d af data hslow
  refine ⟨?_, ?_, ?_, ?_, ?_, ?_, ?_⟩
  · intro hv
    simp [gainStageOutput, hv]
  · intro v hv hp
    simp [gainStageOutput, hv, hp]
  · intro v hv hp
    simp [gainStageOutput, hv, hp]
  · intro hs
    rw [hplay, hs]
    exact ⟨rfl, rfl⟩
  · intro t hs hp
    rw [hplay, hs]
    simp [hp]
  · intro t hs hp
    rw [hplay, hs]
    simp [hp]
  · intro hv hs
    rw [hplay, hs]
    simp [gainStageOutput, afterGainStage, hv]

/-- Witness for C9: the busy sample controller (both stages present, volume
set, tempo scaling on at speed 2) playing the sample buffer with a host
instance that held multiplier 7 and delay 9. -/
theorem play_gain_then_tempo_witness :
    fastPath sampleBusy = false
    ∧ (play toyVolume toyTempo sampleBusy { mul := FP.fin 7, delay := FP.fin 9 } sampleBuffer).1
        = { sampleBuffer with audio := [20, 40] }
    ∧ (play toyVolume toyTempo sampleBusy { mul := FP.fin 7, delay := FP.fin 9 } sampleBuffer).2.2
        = { mul := toyTempo.multiplier 1, delay := toyTempo.delay 1 } :=
  ⟨by rfl,
   ((play_gain_then_tempo toyVolume toyTempo sampleBusy { mul := FP.fin 7, delay := FP.fin 9 }
      sampleBuffer (by rfl)).2.2.2.2.2.1 0 (by rfl) (by rfl)).1,
   ((play_gain_then_tempo toyVolume toyTempo sampleBusy { mul := FP.fin 7, delay := FP.fin 9 }
      sampleBuffer (by rfl)).2.2.2.2.2.1 0 (by rfl) (by rfl)).2⟩

/-- C10: `setLevel(x)` makes the level array AF_NCH copies of x narrowed to
single precision, which `level()` then returns, and changes no other field of
the controller, the volume-was-explicitly-set flag included; hence with that
flag, normalization and tempo scaling all off, a `play` after `setLevel(x)`
returns its input buffer unchanged, for every x. -/
theorem setLevel_frame (c : AfConst) (h : HostLib) (vops : VolumeOps V T)
    (tops : TempoOps V T) (d : Data V T) (x : FP) (af : af_instance) (buf : mp_audio) :
    (setLevel c h d x).level.length = c.AF_NCH
    ∧ (∀ y ∈ (setLevel c h d x).level, y = h.narrow x)
    ∧ (0 < c.AF_NCH → level (setLevel c h d x) = h.narrow x)
    ∧ (setLevel c h d x).volumeChanged = d.volumeChanged
    ∧ (setLevel c h d x).normalizerActivated = d.normalizerActivated
    ∧ (setLevel c h d x).tempoScalerActivated = d.tempoScalerActivated
    ∧ (setLevel c h d x).scale = d.scale
    ∧ (setLevel c h d x).scaler = d.scaler
    ∧ (setLevel c h d x).volume = d.volume
    ∧ (setLevel c h d x).data = d.data
    ∧ (setLevel c h d x).normalizerOption = d.normalizerOption
    ∧ (setLevel c h d x).clip = d.clip
    ∧ (d.volumeChanged = false → d.normalizerActivated = false →
        d.tempoScalerActivated = false →
        play vops tops (setLevel c h d x) af buf = (buf, setLevel c h d x, af)) := by
  refine ⟨by simp [setLevel], ?_, ?_, rfl, rfl, rfl, rfl, rfl, rfl, rfl, rfl, rfl, ?_⟩
  · intro y hy
    simp only [setLevel, List.mem_replicate] at hy
    exact hy.2
  · intro hpos
    obtain ⟨n, hn⟩ := Nat.exists_eq_succ_of_ne_zero (Nat.pos_iff_ne_zero.mp hpos)
    simp [level, setLevel, hn, List.replicate_succ]
  · intro h1 h2 h3
    exact play_fast vops tops _ af buf (fastPath_of_flags _ h1 h2 h3)

/-- Witness for C10: `setLevel(3)` on the fresh sample controller, then `play`. -/
theorem setLevel_frame_witness :
    0 < sampleConst.AF_NCH
    ∧ level (setLevel sampleConst toyHost sampleData (FP.fin 3)) = FP.fin 3
    ∧ play toyVolume toyTempo (setLevel sampleConst toyHost sampleData (FP.fin 3))
          { mul := FP.fin 1, delay := FP.fin 0 } sampleBuffer
        = (sampleBuffer, setLevel sampleConst toyHost sampleData (FP.fin 3),
            { mul := FP.fin 1, delay := FP.fin 0 }) :=
  ⟨by decide,
   (setLevel_frame sampleConst toyHost toyVolume toyTempo sampleData (FP.fin 3)
      { mul := FP.fin 1, delay := FP.fin 0 } sampleBuffer).2.2.1 (by decide),
   (setLevel_frame sampleConst toyHost toyVolume toyTempo sampleData (FP.fin 3)
      { mul := FP.fin 1, delay := FP.fin 0 } sampleBuffer).2.2.2.2.2.2.2.2.2.2.2.2
      rfl rfl rfl⟩

theorem reinitialize_flag (c : AfConst) (h : HostLib) (vops : VolumeOps V T)
    (tops : TempoOps V T) (d : Data V T) (data : Option mp_audio) :
    ( reinitialize c h vops tops d data).2.1.volumeChanged = false := by
  cases data with
  | none => rfl
  | some p =>
    unfold reinitialize
    by_cases hw : p.format = c.AF_FORMAT_S16_NE ∨ p.format = c.AF_FORMAT_S32_NE
        ∨ p.format = c.AF_FORMAT_FLOAT_NE ∨ p.format = c.AF_FORMAT_DOUBLE_NE
    · simp [hw]
    · simp [hw]

theorem control_flag (c : AfConst) (h : HostLib) (vops : VolumeOps V T)
    (tops : TempoOps V T) (d : Data V T) (cmd : Int) (arg : Arg)
    (r : Int × Data V T × Arg) (hr : control c h vops tops d cmd arg = some r) :
    r.2.1.volumeChanged
      = if cmd = (c.AF_CONTROL_REINIT : Int) then false
        else if cmd = ((c.AF_CONTROL_VOLUME_LEVEL ||| c.AF_CONTROL_SET : Nat) : Int) then true
        else d.volumeChanged := by
  delta control at hr
  by_cases c1 : cmd = (c.AF_CONTROL_REINIT : Int)
  · rw [if_pos c1] at hr
    rw [if_pos c1]
    cases arg <;> simp at hr
    · rw [← hr]
      exact reinitialize_flag c h vops tops d none
    · rw [← hr]
      exact reinitialize_flag c h vops tops d _
  · rw [if_neg c1] at hr
    rw [if_neg c1]
    by_cases c2 : cmd = ((c.AF_CONTROL_VOLUME_LEVEL ||| c.AF_CONTROL_SET : Nat) : Int)
    · rw [if_pos c2] at hr
      rw [if_pos c2]
      cases arg <;> simp at hr <;> (rw [← hr])
    · rw [if_neg c2] at hr
      rw [if_neg c2]
      by_cases c3 : cmd = ((c.AF_CONTROL_VOLUME_LEVEL ||| c.AF_CONTROL_GET : Nat) : Int)
      · rw [if_pos c3] at hr
        cases arg <;> simp at hr <;> (rw [← hr])
      · rw [if_neg c3] at hr
        by_cases c4 : cmd = ((c.AF_CONTROL_PLAYBACK_SPEED ||| c.AF_CONTROL_SET : Nat) : Int)
            ∨ cmd = ((c.AF_CONTROL_SCALETEMPO_AMOUNT ||| c.AF_CONTROL_SET : Nat) : Int)
        · rw [if_pos c4] at hr
          cases arg <;> simp at hr
          rw [← hr]
        · rw [if_neg c4] at hr
          by_cases c5 : cmd
              = ((c.AF_CONTROL_SCALETEMPO_AMOUNT ||| c.AF_CONTROL_GET : Nat) : Int)
          · rw [if_pos c5] at hr
            cases arg <;> simp at hr
            rw [← hr]
          · rw [if_neg c5] at hr
            simp at hr
            rw [← hr]

theorem control_total (c : AfConst) (h : HostLib) (vops : VolumeOps V T)
    (tops : TempoOps V T) (d : Data V T) (cmd : Int) (arg : Arg)
    (hfit : argFits c cmd arg = true) :
    ∃ r, control c h vops tops d cmd arg = some r := by
  unfold argFits at hfit
  delta control
  by_cases c1 : cmd = (c.AF_CONTROL_REINIT : Int)
  · rw [if_pos c1] at hfit
    rw [if_pos c1]
    cases arg <;> simp at hfit ⊢
  · rw [if_neg c1] at hfit
    rw [if_neg c1]
    by_cases c2 : cmd = ((c.AF_CONTROL_VOLUME_LEVEL ||| c.AF_CONTROL_SET : Nat) : Int)
    · rw [if_pos (Or.inl c2)] at hfit
      rw [if_pos c2]
      cases arg <;> simp at hfit ⊢
    · rw [if_neg c2]
      by_cases c3 : cmd = ((c.AF_CONTROL_VOLUME_LEVEL ||| c.AF_CONTROL_GET : Nat) : Int)
      · rw [if_pos (Or.inr c3)] at hfit
        rw [if_pos c3]
        cases arg <;> simp at hfit ⊢
      · rw [if_neg (not_or.mpr ⟨c2, c3⟩)] at hfit
        rw [if_neg c3]
        by_cases c4 : cmd = ((c.AF_CONTROL_PLAYBACK_SPEED ||| c.AF_CONTROL_SET : Nat) : Int)
            ∨ cmd = ((c.AF_CONTROL_SCALETEMPO_AMOUNT ||| c.AF_CONTROL_SET : Nat) : Int)
        · have c4b : cmd = ((c.AF_CONTROL_PLAYBACK_SPEED ||| c.AF_CONTROL_SET : Nat) : Int)
              ∨ cmd = ((c.AF_CONTROL_SCALETEMPO_AMOUNT ||| c.AF_CONTROL_SET : Nat) : Int)
              ∨ cmd = ((c.AF_CONTROL_SCALETEMPO_AMOUNT ||| c.AF_CONTROL_GET : Nat) : Int) := by
            tauto
          rw [if_pos c4b] at hfit
          rw [if_pos c4]
          cases arg <;> simp at hfit ⊢
        · rw [if_neg c4]
          by_cases c5 : cmd
              = ((c.AF_CONTROL_SCALETEMPO_AMOUNT ||| c.AF_CONTROL_GET : Nat) : Int)
          · have c5b : cmd = ((c.AF_CONTROL_PLAYBACK_SPEED ||| c.AF_CONTROL_SET : Nat) : Int)
                ∨ cmd = ((c.AF_CONTROL_SCALETEMPO_AMOUNT ||| c.AF_CONTROL_SET : Nat) : Int)
                ∨ cmd = ((c.AF_CONTROL_SCALETEMPO_AMOUNT ||| c.AF_CONTROL_GET : Nat) : Int) := by
              tauto
            rw [if_pos c5b] at hfit
            rw [if_pos c5]
            cases arg <;> simp at hfit ⊢
          · rw [if_neg c5]
            exact ⟨_, rfl⟩

theorem afterGainStage_flag (vops : VolumeOps V T) (d : Data V T) (data : mp_audio) :
    (afterGainStage vops d data).volumeChanged = d.volumeChanged := by
  unfold afterGainStage
  cases hv : d.volume with
  | none => rfl
  | some v =>
    by_cases hp : (vops.prepare v d data).1 = true
    · simp [hp]
    · simp [hp]

theorem play_flag (vops : VolumeOps V T) (tops : TempoOps V T) (d : Data V T)
    (af : af_instance) (data : mp_audio) :
    (play vops tops d af data).2.1.volumeChanged = d.volumeChanged := by
  by_cases hf : fastPath d = true
  · rw [play_fast vops tops d af data hf]
  · have hslow : fastPath d = false := by simpa using hf
    rw [play_slow vops tops d af data hslow]
    cases hs : d.scaler with
    | none => exact afterGainStage_flag vops d data
    | some t =>
      by_cases hp : (tops.prepare t (afterGainStage vops d data)
          (gainStageOutput vops d data)).1 = true
      · simp [hp, afterGainStage_flag]
      · simp [hp, afterGainStage_flag]

theorem step_total (c : AfConst) (h : HostLib) (vops : VolumeOps V T)
    (tops : TempoOps V T) (s : Data V T × af_instance) (op : Op)
    (hfit : Op.fits c op = true) :
    ∃ s1, step c h vops tops s op = some s1 := by
  cases op with
  | control cmd arg =>
    obtain ⟨r, hr⟩ := control_total c h vops tops s.1 cmd arg hfit
    exact ⟨(r.2.1, s.2), by simp [step, hr]⟩
  | play data => exact ⟨_, rfl⟩
  | setLevel x => exact ⟨_, rfl⟩
  | setNormalizerActivated b => exact ⟨_, rfl⟩
  | setTempoScalerActivated b => exact ⟨_, rfl⟩
  | setNormalizerOption l t si mi ma => exact ⟨_, rfl⟩
  | setClippingMethod m => exact ⟨_, rfl⟩

theorem step_flag (c : AfConst) (h : HostLib) (vops : VolumeOps V T)
    (tops : TempoOps V T) (s s1 : Data V T × af_instance) (op : Op)
    (hs : step c h vops tops s op = some s1) :
    s1.1.volumeChanged
      = if Op.isReinit c op = true then false
        else if Op.isSetVolume c op = true then true
        else s.1.volumeChanged := by
  cases op with
  | control cmd arg =>
    simp only [step] at hs
    cases hr : control c h vops tops s.1 cmd arg with
    | none => simp [hr] at hs
    | some r =>
      simp only [hr, Option.some.injEq] at hs
      have hcf := control_flag c h vops tops s.1 cmd arg r hr
      rw [← hs]
      simpa [Op.isReinit, Op.isSetVolume] using hcf
  | play data =>
    simp only [step, Option.some.injEq] at hs
    rw [← hs]
    simpa [Op.isReinit, Op.isSetVolume] using play_flag vops tops s.1 s.2 data
  | setLevel x =>
    simp only [step, Option.some.injEq] at hs
    rw [← hs]
    simp [Op.isReinit, Op.isSetVolume, setLevel]
  | setNormalizerActivated b =>
    simp only [step, Option.some.injEq] at hs
    rw [← hs]
    simp [Op.isReinit, Op.isSetVolume, setNormalizerActivated]
  | setTempoScalerActivated b =>
    simp only [step, Option.some.injEq] at hs
    rw [← hs]
    simp [Op.isReinit, Op.isSetVolume, setTempoScalerActivated]
  | setNormalizerOption l t si mi ma =>
    simp only [step, Option.some.injEq] at hs
    rw [← hs]
    simp [Op.isReinit, Op.isSetVolume, setNormalizerOption]
  | setClippingMethod m =>
    simp only [step, Option.some.injEq] at hs
    rw [← hs]
    simp [Op.isReinit, Op.isSetVolume, setClippingMethod]

theorem setVolumeAfterLastReinit_cons (c : AfConst) (op : Op) (rest : List Op) :
    SetVolumeAfterLastReinit c (op :: rest)
      ↔ SetVolumeAfterLastReinit c rest
        ∨ (Op.isSetVolume c op = true ∧ ∀ o ∈ rest, Op.isReinit c o = false) := by
  constructor
  · rintro ⟨pre, arg, post, heq, hpost⟩
    cases pre with
    | nil =>
      simp only [List.nil_append, List.cons.injEq] at heq
      obtain ⟨h1, h2⟩ := heq
      right
      subst h1 h2
      exact ⟨by simp [Op.isSetVolume], hpost⟩
    | cons a pre1 =>
      simp only [List.cons_append, List.cons.injEq] at heq
      left
      exact ⟨pre1, arg, post, heq.2, hpost⟩
  · rintro (⟨pre, arg, post, heq, hpost⟩ | ⟨hset, hrest⟩)
    · exact ⟨op :: pre, arg, post, by simp [heq], hpost⟩
    · cases op with
      | control cmd arg =>
        simp only [Op.isSetVolume, decide_eq_true_eq] at hset
        subst hset
        exact ⟨[], arg, rest, rfl, hrest⟩
      | play data => simp [Op.isSetVolume] at hset
      | setLevel x => simp [Op.isSetVolume] at hset
      | setNormalizerActivated b => simp [Op.isSetVolume] at hset
      | setTempoScalerActivated b => simp [Op.isSetVolume] at hset
      | setNormalizerOption l t si mi ma => simp [Op.isSetVolume] at hset
      | setClippingMethod m => simp [Op.isSetVolume] at hset

theorem not_setVolumeAfterLastReinit_nil (c : AfConst) :
    ¬ SetVolumeAfterLastReinit c [] := by
  rintro ⟨pre, arg, post, heq, -⟩
  cases pre <;> simp at heq

theorem isSetVolume_of_isReinit (c : AfConst) (hc : c.WellFormed) (op : Op)
    (hr : Op.isReinit c op = true) : Op.isSetVolume c op = false := by
  obtain ⟨h1, -⟩ := labels_ne hc
  cases op with
  | control cmd arg =>
    simp only [Op.isReinit, decide_eq_true_eq] at hr
    subst hr
    simp [Op.isSetVolume, h1]
  | play data => rfl
  | setLevel x => rfl
  | setNormalizerActivated b => rfl
  | setTempoScalerActivated b => rfl
  | setNormalizerOption l t si mi ma => rfl
  | setClippingMethod m => rfl

theorem run_flag (c : AfConst) (h : HostLib) (vops : VolumeOps V T) (tops : TempoOps V T)
    (hc : c.WellFormed) (ops : List Op) :
    ∀ s0 s : Data V T × af_instance, run c h vops tops s0 ops = some s →
      (s.1.volumeChanged = true
        ↔ SetVolumeAfterLastReinit c ops
          ∨ (s0.1.volumeChanged = true ∧ ∀ o ∈ ops, Op.isReinit c o = false)) := by
  induction ops with
  | nil =>
    intro s0 s hrun
    simp only [run, Option.some.injEq] at hrun
    subst hrun
    simp [not_setVolumeAfterLastReinit_nil]
  | cons op rest ih =>
    intro s0 s hrun
    simp only [run] at hrun
    cases hstep : step c h vops tops s0 op with
    | none => simp [hstep] at hrun
    | some s1 =>
      simp only [hstep] at hrun
      have hflag := step_flag c h vops tops s0 s1 op hstep
      have hih := ih s1 s hrun
      rw [setVolumeAfterLastReinit_cons, List.forall_mem_cons, hih]
      cases hre : Op.isReinit c op with
      | true =>
        have hsv := isSetVolume_of_isReinit c hc op hre
        simp [hre, hsv] at hflag ⊢
        simp [hflag]
      | false =>
        cases hsv : Op.isSetVolume c op with
        | true =>
          simp [hre, hsv] at hflag ⊢
          simp [hflag]
          tauto
        | false =>
          simp [hre, hsv] at hflag ⊢
          simp [hflag]

theorem run_total (c : AfConst) (h : HostLib) (vops : VolumeOps V T) (tops : TempoOps V T)
    (ops : List Op) :
    ∀ s0 : Data V T × af_instance, (∀ o ∈ ops, Op.fits c o = true) →
      ∃ s, run c h vops tops s0 ops = some s := by
  induction ops with
  | nil => intro s0 _; exact ⟨s0, rfl⟩
  | cons op rest ih =>
    intro s0 hfit
    obtain ⟨s1, hs1⟩ := step_total c h vops tops s0 op (hfit op (List.mem_cons_self _ _))
    obtain ⟨s, hs⟩ := ih s1 (fun o ho => hfit o (List.mem_cons_of_mem _ ho))
    exact ⟨s, by simp [run, hs1, hs]⟩

/-- C4: every finite sequence of operations (control commands with payloads of
fitting shape, `play` calls, public setters) runs to completion from a freshly
constructed controller, and afterwards the volume-was-explicitly-set flag is
true exactly when the sequence contains a set-volume command with no reinit
command after it.  In particular a reinit command leaves the flag false, also
the one with a null format that is rejected with AF_ERROR, and a set-volume
command leaves it true. -/
theorem volumeChanged_iff_setVolume_after_last_reinit (c : AfConst) (h : HostLib)
    (vops : VolumeOps V T) (tops : TempoOps V T) (hc : c.WellFormed)
    (opt0 : NormalizerOption) (af0 : af_instance) (ops : List Op)
    (hfit : ∀ o ∈ ops, Op.fits c o = true) :
    (∃ s, run c h vops tops (ctor c opt0, af0) ops = some s
        ∧ (s.1.volumeChanged = true ↔ SetVolumeAfterLastReinit c ops))
    ∧ (∀ d : Data V T, ∃ r, control c h vops tops d (c.AF_CONTROL_REINIT : Int) Arg.null = some r
        ∧ r.1 = c.AF_ERROR ∧ r.2.1.volumeChanged = false)
    ∧ (∀ (d : Data V T) (p : mp_audio),
        ∃ r, control c h vops tops d (c.AF_CONTROL_REINIT : Int) (Arg.audio p) = some r
          ∧ r.2.1.volumeChanged = false)
    ∧ (∀ (d : Data V T) (arg : Arg),
        argFits c ((c.AF_CONTROL_VOLUME_LEVEL ||| c.AF_CONTROL_SET : Nat) : Int) arg = true →
        ∃ r, control c h vops tops d
              ((c.AF_CONTROL_VOLUME_LEVEL ||| c.AF_CONTROL_SET : Nat) : Int) arg = some r
          ∧ r.2.1.volumeChanged = true) := by
  obtain ⟨h1, -⟩ := labels_ne hc
  refine ⟨?_, ?_, ?_, ?_⟩
  · obtain ⟨s, hs⟩ := run_total c h vops tops ops (ctor c opt0, af0) hfit
    refine ⟨s, hs, ?_⟩
    rw [run_flag c h vops tops hc ops _ s hs]
    simp [ctor]
  · intro d
    refine ⟨(c.AF_ERROR, { d with volumeChanged := false }, Arg.null), ?_, rfl, rfl⟩
    delta control
    simp [ reinitialize]
  · intro d p
    obtain ⟨r, hr⟩ := control_total c h vops tops d (c.AF_CONTROL_REINIT : Int) (Arg.audio p)
      (by delta argFits; simp)
    refine ⟨r, hr, ?_⟩
    rw [control_flag c h vops tops d _ _ r hr]
    simp
  · intro d arg hfit1
    obtain ⟨r, hr⟩ := control_total c h vops tops d _ arg hfit1
    refine ⟨r, hr, ?_⟩
    rw [control_flag c h vops tops d _ _ r hr]
    simp [h1.symm]

/-- Witness for C4: the sample volume session, whose last set-volume command
comes after its only reinit command. -/
theorem volumeChanged_iff_setVolume_after_last_reinit_witness :
    sampleConst.WellFormed
    ∧ (∀ o ∈ sampleVolumeSession, Op.fits sampleConst o = true)
    ∧ ∃ s, run sampleConst toyHost toyVolume toyTempo
          (ctor sampleConst sampleOption, { mul := FP.fin 1, delay := FP.fin 0 })
          sampleVolumeSession = some s
        ∧ (s.1.volumeChanged = true ↔ SetVolumeAfterLastReinit sampleConst sampleVolumeSession) :=
  ⟨by decide, by decide,
   (volumeChanged_iff_setVolume_after_last_reinit sampleConst toyHost toyVolume toyTempo
      (by decide) sampleOption { mul := FP.fin 1, delay := FP.fin 0 } sampleVolumeSession
      (by decide)).1⟩

theorem sampleBuilt_reached :
    run sampleConst toyHost clampingVolume noTempo
        (ctor sampleConst sampleOption, { mul := FP.fin 1, delay := FP.fin 0 })
        sampleNormalizerSession
      = some (sampleBuilt, { mul := FP.fin 1, delay := FP.fin 0 }) := by
  rfl

theorem FP_le_self_left (a b : FP) (hab : FP.le a b = true) : FP.le a a = true := by
  cases a <;> cases b <;> simp [FP.le] at hab ⊢

theorem FP_le_self_right (a b : FP) (hab : FP.le a b = true) : FP.le b b = true := by
  cases a <;> cases b <;> simp [FP.le] at hab ⊢

theorem clampGain_inRange (o : NormalizerOption) (raw : FP)
    (ho : FP.le o.minimumGain o.maximumGain = true) :
    gainInRange o (clampGain o raw) = true := by
  unfold clampGain gainInRange
  by_cases h1 : FP.le o.minimumGain raw = true
  · by_cases h2 : FP.le raw o.maximumGain = true
    · simp [h1, h2]
    · simp [h1, h2, ho, FP_le_self_right _ _ ho]
  · simp [h1, ho, FP_le_self_left _ _ ho]

theorem clampingVolume_clampsGain : ClampsGain clampingVolume := by
  intro v d data hn ho
  simp only [clampingVolume, hn, if_true]
  exact ⟨clampGain_inRange _ _ ho, clampGain_inRange _ _ ho⟩

theorem gain_of_stage (vops : VolumeOps V T) (d : Data V T) (v : V)
    (hn : d.normalizerActivated = true) (hv : d.volume = some v) :
    gain vops d = vops.gain v := by
  simp [gain, hn, hv]

theorem gain_escapes_after_setNormalizerOption (vops : VolumeOps V T) (d : Data V T) (v : V)
    (hn : d.normalizerActivated = true) (hv : d.volume = some v) (l t si : FP) :
    ∃ lo hi, FP.le lo hi = true
      ∧ (setNormalizerOption d l t si lo hi).normalizerActivated = true
      ∧ (setNormalizerOption d l t si lo hi).volume = some v
      ∧ gainInRange (setNormalizerOption d l t si lo hi).normalizerOption
          (gain vops (setNormalizerOption d l t si lo hi)) = false := by
  have hg : ∀ lo hi, gain vops (setNormalizerOption d l t si lo hi) = vops.gain v :=
    fun lo hi => gain_of_stage vops _ v hn hv
  cases hgv : vops.gain v with
  | fin q =>
    refine ⟨FP.fin (q + 1), FP.fin (q + 1), by simp [FP.le], hn, hv, ?_⟩
    rw [hg, hgv]
    simp [setNormalizerOption, gainInRange, FP.le]
  | pinf =>
    refine ⟨FP.fin 0, FP.fin 0, by simp [FP.le], hn, hv, ?_⟩
    rw [hg, hgv]
    simp [setNormalizerOption, gainInRange, FP.le]
  | ninf =>
    refine ⟨FP.fin 0, FP.fin 0, by simp [FP.le], hn, hv, ?_⟩
    rw [hg, hgv]
    simp [setNormalizerOption, gainInRange, FP.le]
  | nan =>
    refine ⟨FP.fin 0, FP.fin 0, by simp [FP.le], hn, hv, ?_⟩
    rw [hg, hgv]
    simp [setNormalizerOption, gainInRange, FP.le]

theorem play_stage_clamped (vops : VolumeOps V T) (tops : TempoOps V T) (d : Data V T)
    (af : af_instance) (data : mp_audio) (v : V) (hcl : ClampsGain vops)
    (hn : d.normalizerActivated = true)
    (ho : FP.le d.normalizerOption.minimumGain d.normalizerOption.maximumGain = true)
    (hv : d.volume = some v) :
    (play vops tops d af data).2.1.normalizerActivated = true
    ∧ (play vops tops d af data).2.1.normalizerOption = d.normalizerOption
    ∧ ∃ v1, (play vops tops d af data).2.1.volume = some v1
        ∧ gainInRange d.normalizerOption (vops.gain v1) = true := by
  have hslow : fastPath d = false := by simp [fastPath, hn]
  obtain ⟨hc1, hc2⟩ := hcl v d data hn ho
  have hmid : (afterGainStage vops d data).normalizerActivated = true
      ∧ (afterGainStage vops d data).normalizerOption = d.normalizerOption
      ∧ ∃ v1, (afterGainStage vops d data).volume = some v1
          ∧ gainInRange d.normalizerOption (vops.gain v1) = true := by
    by_cases hp : (vops.prepare v d data).1 = true
    · have hag : afterGainStage vops d data
          = { d with volume := some (vops.play (vops.prepare v d data).2 data).2 } := by
        simp [afterGainStage, hv, hp]
      rw [hag]
      exact ⟨hn, rfl, _, rfl, hc2⟩
    · have hag : afterGainStage vops d data
          = { d with volume := some (vops.prepare v d data).2 } := by
        simp [afterGainStage, hv, hp]
      rw [hag]
      exact ⟨hn, rfl, _, rfl, hc1⟩
  rw [play_slow vops tops d af data hslow]
  cases hs : d.scaler with
  | none => exact hmid
  | some t =>
    by_cases hp : (tops.prepare t (afterGainStage vops d data)
        (gainStageOutput vops d data)).1 = true
    · simp only [hp, if_true]
      exact hmid
    · simp only [hp]
      exact hmid

theorem control_keeps_stage (c : AfConst) (h : HostLib) (vops : VolumeOps V T)
    (tops : TempoOps V T) (d : Data V T) (cmd : Int) (arg : Arg)
    (r : Int × Data V T × Arg) (hr : control c h vops tops d cmd arg = some r)
    (hcmd : cmd ≠ (c.AF_CONTROL_REINIT : Int)) :
    r.2.1.volume = d.volume ∧ r.2.1.normalizerOption = d.normalizerOption := by
  delta control at hr
  rw [if_neg hcmd] at hr
  by_cases c2 : cmd = ((c.AF_CONTROL_VOLUME_LEVEL ||| c.AF_CONTROL_SET : Nat) : Int)
  · rw [if_pos c2] at hr
    cases arg <;> simp at hr <;> (rw [← hr]; exact ⟨rfl, rfl⟩)
  · rw [if_neg c2] at hr
    by_cases c3 : cmd = ((c.AF_CONTROL_VOLUME_LEVEL ||| c.AF_CONTROL_GET : Nat) : Int)
    · rw [if_pos c3] at hr
      cases arg <;> simp at hr <;> (rw [← hr]; exact ⟨rfl, rfl⟩)
    · rw [if_neg c3] at hr
      by_cases c4 : cmd = ((c.AF_CONTROL_PLAYBACK_SPEED ||| c.AF_CONTROL_SET : Nat) : Int)
          ∨ cmd = ((c.AF_CONTROL_SCALETEMPO_AMOUNT ||| c.AF_CONTROL_SET : Nat) : Int)
      · rw [if_pos c4] at hr
        cases arg <;> simp at hr
        rw [← hr]
        exact ⟨rfl, rfl⟩
      · rw [if_neg c4] at hr
        by_cases c5 : cmd
            = ((c.AF_CONTROL_SCALETEMPO_AMOUNT ||| c.AF_CONTROL_GET : Nat) : Int)
        · rw [if_pos c5] at hr
          cases arg <;> simp at hr
          rw [← hr]
          exact ⟨rfl, rfl⟩
        · rw [if_neg c5] at hr
          simp at hr
          rw [← hr]
          exact ⟨rfl, rfl⟩

theorem step_keeps_stage (c : AfConst) (h : HostLib) (vops : VolumeOps V T)
    (tops : TempoOps V T) (s s1 : Data V T × af_instance) (op : Op)
    (hs : step c h vops tops s op = some s1) (hk : Op.keepsGainStage c op = true) :
    s1.1.volume = s.1.volume ∧ s1.1.normalizerOption = s.1.normalizerOption := by
  cases op with
  | control cmd arg =>
    simp only [Op.keepsGainStage, Bool.not_eq_true', decide_eq_false_iff_not] at hk
    simp only [step] at hs
    cases hr : control c h vops tops s.1 cmd arg with
    | none => simp [hr] at hs
    | some r =>
      simp only [hr, Option.some.injEq] at hs
      rw [← hs]
      exact control_keeps_stage c h vops tops s.1 cmd arg r hr hk
  | play data => simp [Op.keepsGainStage] at hk
  | setLevel x =>
    simp only [step, Option.some.injEq] at hs
    rw [← hs]
    exact ⟨rfl, rfl⟩
  | setNormalizerActivated b =>
    simp only [step, Option.some.injEq] at hs
    rw [← hs]
    exact ⟨rfl, rfl⟩
  | setTempoScalerActivated b =>
    simp only [step, Option.some.injEq] at hs
    rw [← hs]
    exact ⟨rfl, rfl⟩
  | setNormalizerOption l t si mi ma => simp [Op.keepsGainStage] at hk
  | setClippingMethod m =>
    simp only [step, Option.some.injEq] at hs
    rw [← hs]
    exact ⟨rfl, rfl⟩

theorem run_keeps_stage (c : AfConst) (h : HostLib) (vops : VolumeOps V T)
    (tops : TempoOps V T) (ops : List Op) :
    ∀ s0 s : Data V T × af_instance, (∀ o ∈ ops, Op.keepsGainStage c o = true) →
      run c h vops tops s0 ops = some s →
      s.1.volume = s0.1.volume ∧ s.1.normalizerOption = s0.1.normalizerOption := by
  induction ops with
  | nil =>
    intro s0 s _ hrun
    simp only [run, Option.some.injEq] at hrun
    subst hrun
    exact ⟨rfl, rfl⟩
  | cons op rest ih =>
    intro s0 s hk hrun
    simp only [run] at hrun
    cases hstep : step c h vops tops s0 op with
    | none => simp [hstep] at hrun
    | some s1 =>
      simp only [hstep] at hrun
      obtain ⟨k1, k2⟩ := step_keeps_stage c h vops tops s0 s1 op hstep
        (hk op (List.mem_cons_self _ _))
      obtain ⟨i1, i2⟩ := ih s1 s (fun o ho => hk o (List.mem_cons_of_mem _ ho)) hrun
      exact ⟨i1.trans k1, i2.trans k2⟩

/-- C3 (counterexample): two reachable states with normalization active and
minimumGain ≤ maximumGain where `gain()` is outside the stored interval.
First, a fresh controller with settings [2, 4] and normalization switched on:
no gain stage exists and `gain()` is 1.0.  Second, with a gain stage that
honours the clamp contract: after the normalizer session and one `play` the
stage holds the correction 2 from [2, 4]; `setNormalizerOption` then stores
[5, 6] without the stage being asked, and `gain()` is still 2. -/
theorem gain_outside_stored_interval :
    (sampleNormalizing.normalizerActivated = true
      ∧ FP.le sampleNormalizing.normalizerOption.minimumGain
          sampleNormalizing.normalizerOption.maximumGain = true
      ∧ sampleNormalizing.volume = none
      ∧ gain toyVolume sampleNormalizing = FP.fin 1
      ∧ gainInRange sampleNormalizing.normalizerOption (gain toyVolume sampleNormalizing)
          = false)
    ∧ (run sampleConst toyHost clampingVolume noTempo
          (ctor sampleConst sampleOption, { mul := FP.fin 1, delay := FP.fin 0 })
          (sampleNormalizerSession ++
            [Op.play sampleBuffer,
              Op.setNormalizerOption (FP.fin 5) (FP.fin 1) (FP.fin 0) (FP.fin 5) (FP.fin 6)])
        = some (sampleRestored, { mul := FP.fin 1, delay := FP.fin 0 })
      ∧ sampleRestored.normalizerActivated = true
      ∧ FP.le sampleRestored.normalizerOption.minimumGain
          sampleRestored.normalizerOption.maximumGain = true
      ∧ sampleRestored.volume = some (FP.fin 2)
      ∧ gain clampingVolume sampleRestored = FP.fin 2
      ∧ gainInRange sampleRestored.normalizerOption (gain clampingVolume sampleRestored)
          = false) := by
  have hg1 : gain toyVolume sampleNormalizing = FP.fin 1 := by rfl
  have hg2 : gain clampingVolume sampleRestored = FP.fin 2 := by rfl
  refine ⟨⟨by rfl, ?_, by rfl, hg1, ?_⟩, by rfl, by rfl, ?_, by rfl, hg2, ?_⟩
  · norm_num [sampleNormalizing, setNormalizerActivated, setNormalizerOption, FP.le]
  · rw [hg1]
    simp [sampleNormalizing, setNormalizerActivated, setNormalizerOption, gainInRange, FP.le]
  · norm_num [sampleRestored, FP.le]
  · rw [hg2]
    norm_num [sampleRestored, gainInRange, FP.le]

/-- C3 (amended): in every controller state with normalization active and
minimumGain ≤ maximumGain stored: (1) when no gain stage has been built,
`gain()` is exactly 1.0, which lies in [minimumGain, maximumGain] exactly when
minimumGain ≤ 1.0 ≤ maximumGain; (2) when a gain stage is present, `gain()`
is that stage's value; (3) with a gain stage that honours the clamp contract,
after every `play` call `gain()` lies in the stored [minimumGain, maximumGain],
`play` keeps the stored settings, and `gain()` stays in the interval, whenever
normalization is active, through every further sequence of operations that
contains no `play`, no reinit command and no `setNormalizerOption`. -/
theorem gain_when_normalizing (c : AfConst) (h : HostLib) (vops : VolumeOps V T)
    (tops : TempoOps V T) (d : Data V T) (hn : d.normalizerActivated = true)
    (ho : FP.le d.normalizerOption.minimumGain d.normalizerOption.maximumGain = true) :
    (d.volume = none →
        gain vops d = FP.fin 1
        ∧ (gainInRange d.normalizerOption (gain vops d) = true
            ↔ (FP.le d.normalizerOption.minimumGain (FP.fin 1) = true
                ∧ FP.le (FP.fin 1) d.normalizerOption.maximumGain = true)))
    ∧ (∀ v, d.volume = some v → gain vops d = vops.gain v)
    ∧ (ClampsGain vops → ∀ v, d.volume = some v → ∀ (af : af_instance) (data : mp_audio),
        gainInRange (play vops tops d af data).2.1.normalizerOption
            (gain vops (play vops tops d af data).2.1) = true
        ∧ (play vops tops d af data).2.1.normalizerOption = d.normalizerOption
        ∧ ∀ (ops : List Op) (s : Data V T × af_instance),
            (∀ o ∈ ops, Op.keepsGainStage c o = true) →
            run c h vops tops ((play vops tops d af data).2.1, (play vops tops d af data).2.2) ops
              = some s →
            s.1.normalizerActivated = true →
            gainInRange s.1.normalizerOption (gain vops s.1) = true) := by
  refine ⟨?_, ?_, ?_⟩
  · intro hv
    have hg : gain vops d = FP.fin 1 := by simp [gain, hv]
    refine ⟨hg, ?_⟩
    rw [hg]
    simp [gainInRange]
  · intro v hv
    exact gain_of_stage vops d v hn hv
  · intro hcl v hv af data
    obtain ⟨p1, p2, v1, p3, p4⟩ := play_stage_clamped vops tops d af data v hcl hn ho hv
    refine ⟨?_, p2, ?_⟩
    · rw [gain_of_stage vops _ v1 p1 p3, p2]
      exact p4
    · intro ops s hk hrun hsn
      obtain ⟨k1, k2⟩ := run_keeps_stage c h vops tops ops _ s hk hrun
      have hsv : s.1.volume = some v1 := by rw [k1]; exact p3
      rw [gain_of_stage vops _ v1 hsn hsv, k2, p2]
      exact p4

/-- Witness for C3 (amended): the controller the normalizer session ends in
has the interval [2, 4] stored and a clamping gain stage whose correction is
still 1; after one `play` the stage reports 2, inside the interval and
different from the 1.0 of the stage-less case, and this survives a set-volume
command and a `setLevel`. -/
theorem gain_when_normalizing_witness :
    sampleBuilt.normalizerActivated = true
    ∧ FP.le sampleBuilt.normalizerOption.minimumGain sampleBuilt.normalizerOption.maximumGain
        = true
    ∧ ClampsGain clampingVolume
    ∧ sampleBuilt.volume = some (FP.fin 1)
    ∧ gain clampingVolume
        (play clampingVolume noTempo sampleBuilt { mul := FP.fin 7, delay := FP.fin 9 }
          sampleBuffer).2.1 = FP.fin 2
    ∧ gainInRange
        (play clampingVolume noTempo sampleBuilt { mul := FP.fin 7, delay := FP.fin 9 }
          sampleBuffer).2.1.normalizerOption
        (gain clampingVolume
          (play clampingVolume noTempo sampleBuilt { mul := FP.fin 7, delay := FP.fin 9 }
            sampleBuffer).2.1) = true
    ∧ ∀ s, run sampleConst toyHost clampingVolume noTempo
          ((play clampingVolume noTempo sampleBuilt { mul := FP.fin 7, delay := FP.fin 9 }
              sampleBuffer).2.1,
            (play clampingVolume noTempo sampleBuilt { mul := FP.fin 7, delay := FP.fin 9 }
              sampleBuffer).2.2)
          [Op.control 0x40001300 (Arg.floats [FP.fin 0, FP.fin 0]), Op.setLevel (FP.fin 3)]
        = some s →
      s.1.normalizerActivated = true →
      gainInRange s.1.normalizerOption (gain clampingVolume s.1) = true :=
  ⟨by rfl, by norm_num [sampleBuilt, FP.le], clampingVolume_clampsGain, by rfl, by rfl,
   ((gain_when_normalizing sampleConst toyHost clampingVolume noTempo sampleBuilt (by rfl)
      (by norm_num [sampleBuilt, FP.le])).2.2 clampingVolume_clampsGain (FP.fin 1) (by rfl)
      { mul := FP.fin 7, delay := FP.fin 9 } sampleBuffer).1,
   fun s => ((gain_when_normalizing sampleConst toyHost clampingVolume noTempo sampleBuilt
      (by rfl) (by norm_num [sampleBuilt, FP.le])).2.2 clampingVolume_clampsGain (FP.fin 1)
      (by rfl) { mul := FP.fin 7, delay := FP.fin 9 } sampleBuffer).2.2
      [Op.control 0x40001300 (Arg.floats [FP.fin 0, FP.fin 0]), Op.setLevel (FP.fin 3)] s
      (by decide)⟩

end AudioController

end Bomi
